import Mathlib

/-!
# `server.c`: request-line parsing and response assembly

A shallow embedding of the request handler of `server.c`.

Modelling conventions.

* A C string is the list of its characters before the terminating NUL (`CStr`); `strlen` is
  `List.length`, `strcat` and the `sprintf(response, "%s...", response, ...)` idiom are `++`.
* `int` values are mathematical integers. Every length in the handler is far below `2 ^ 31`, and
  in that range the `size_t` subtraction `strlen(request) - 4 - 9` followed by the conversion to
  `int` is the integer `strlen(request) - 13`, negative for a line shorter than 13 characters.
* Heap blocks are taken to be zero-filled and large enough for what the code writes into them;
  the sizes that the code asks for are stated on their own (`statusLineAlloc`,
  `contentLengthAlloc`). What stops a run is recorded as a `Stop`: a failed `recv`, a failed `assert`, a NULL pointer
  handed to a libc function that reads through it, a copy with a negative length, a string read
  that runs off the end of the receive buffer and the use of a local variable that was never
  assigned.
-/

namespace Server

/-- The value of a C string: the characters before its terminating NUL. -/
abbrev CStr := List Char

/-- The terminating byte of a C string. -/
def NUL : Char := Char.ofNat 0

/-- Why a run of the handler stops before it reaches `send`. -/
inductive Stop
  /-- `recv` returned -1: a message is printed and the thread exits. -/
  | recvFailed
  /-- `recv` waits for bytes that never arrive. -/
  | blocked
  /-- An `assert` failed. -/
  | assertion
  /-- A NULL pointer was handed to a function that reads through it. -/
  | nullPointer
  /-- An access outside the object it was given. -/
  | outOfBounds
  /-- A local variable was used before any assignment to it. -/
  | uninitialised
  deriving DecidableEq, Repr

deriving instance DecidableEq for Except

/-! ## libc string functions, on string values -/

/-- The sign of `strncmp(s1, s2, n)`. -/
def strncmp : CStr → CStr → Nat → Int
  | _, _, 0 => 0
  | [], [], _ + 1 => 0
  | [], _ :: _, _ + 1 => -1
  | _ :: _, [], _ + 1 => 1
  | a :: as, b :: bs, n + 1 =>
    if a = b then strncmp as bs n else if a.toNat < b.toNat then -1 else 1

/-- The sign of `strcmp(s1, s2)`. -/
def strcmp : CStr → CStr → Int
  | [], [] => 0
  | [], _ :: _ => -1
  | _ :: _, [] => 1
  | a :: as, b :: bs =>
    if a = b then strcmp as bs else if a.toNat < b.toNat then -1 else 1

/-- The sign of `strcasecmp(s1, s2)`: `strcmp` on the lower-cased characters. -/
def strcasecmp : CStr → CStr → Int
  | [], [] => 0
  | [], _ :: _ => -1
  | _ :: _, [] => 1
  | a :: as, b :: bs =>
    if a.toLower = b.toLower then strcasecmp as bs
    else if a.toLower.toNat < b.toLower.toNat then -1 else 1

/-- The result of `strstr(haystack, needle)`: the rest of `haystack` from the first occurrence of
`needle` on, `none` for NULL. -/
def strstr (haystack needle : CStr) : Option CStr :=
  match haystack with
  | [] => if needle = [] then some [] else none
  | c :: t => if needle.isPrefixOf (c :: t) then some (c :: t) else strstr t needle

/-- The result of `strrchr(s, c)`: the rest of `s` from the last occurrence of `c` on, `none` for
NULL. -/
def strrchr (s : CStr) (c : Char) : Option CStr :=
  match s with
  | [] => none
  | d :: t =>
    match strrchr t c with
    | some r => some r
    | none => if d = c then some (d :: t) else none

/-- The characters `printf` writes for `%d`. -/
def decimal (i : Int) : CStr :=
  if i < 0 then '-' :: Nat.toDigits 10 i.natAbs else Nat.toDigits 10 i.toNat

/-! ## The constants of `server.c` -/

def HTTP_404_CONTENT : CStr :=
  ("<html><head><title>404 Not Found</title></head><body><h1>404 Not Found</h1>The requested " ++
   "resource could not be found but may be available again in the future.<div style=\"color: " ++
   "#eeeeee; font-size: 8pt;\">Actually, it probably won't ever be available unless this is " ++
   "showing up because of a bug in your program. :(</div></html>").toList

def HTTP_501_CONTENT : CStr :=
  ("<html><head><title>501 Not Implemented</title></head><body><h1>501 Not Implemented</h1>The " ++
   "server either does not recognise the request method, or it lacks the ability to fulfill " ++
   "the request.</body></html>").toList

def HTTP_200_STRING : CStr := "OK".toList
def HTTP_404_STRING : CStr := "Not Found".toList
def HTTP_501_STRING : CStr := "Not Implemented".toList

/-! ## `process_http_header_request` -/

/-- The value of `len`: `strlen(request) - 4 - 9`, as an `int`. -/
def requestLen (request : CStr) : Int := (request.length : Int) - 4 - 9

/-- The request-line parser, lines 42-69: `.ok none` is the NULL return, `.ok (some f)` the
returned filename. The two `assert`s pass the line as the needle, as the source does. A negative
`len` makes `strncpy` write `(size_t)len` bytes, which no block holds. -/
def process_http_header_request (request : CStr) : Except Stop (Option CStr) :=
  if strncmp request "GET ".toList 4 ≠ 0 then .ok none
  else if (strstr "\n".toList request).isSome then .error .assertion
  else if (strstr "\r".toList request).isSome then .error .assertion
  else
    let len := requestLen request
    if len < 0 then .error .outOfBounds
    else
      let filename := (request.drop 4).take len.toNat
      if (strstr filename "..".toList).isSome then .ok none else .ok (some filename)

/-! ## The collaborators of `processRequest` -/

/-- The operations of `libdictionary.h` that the handler calls, as a parameter: `init` is the
dictionary after `dictionary_init`, `parse` is `dictionary_parse`, `get` is `dictionary_get`
with `none` for NULL. -/
structure Dictionary (D : Type) where
  init : D
  parse : D → CStr → D
  get : D → CStr → Option CStr

/-- What one call of `recv` does: it fails with -1, or it writes `bytes` to the start of the
buffer and returns their number (no bytes when the peer has closed the connection). -/
inductive Recv
  | error
  | data (bytes : List Char)
  deriving DecidableEq, Repr

/-- The file a `FILE *` variable refers to. -/
inductive FilePtr
  /-- Never assigned. -/
  | uninit
  /-- The NULL that a failed `fopen` returns. -/
  | null
  /-- An open stream positioned at the start of these bytes. -/
  | stream (contents : List Char)
  deriving DecidableEq, Repr

/-! ## The receive buffer -/

def buffSize : Nat := 250

/-- The buffer `buff` after a `recv` that delivers `bytes`, which are at most `buffSize`: they
replace the start of the buffer, the rest of the buffer keeps what it held. -/
def recv (buff bytes : List Char) : List Char :=
  (bytes.take buffSize) ++ buff.drop (bytes.take buffSize).length

/-- The string that `strstr` and `strtok` see at `buff`: the bytes before the first NUL. Without a
NUL among the `buffSize` bytes the read runs off the end of the array. -/
def bufferString (buff : List Char) : Except Stop CStr :=
  if NUL ∈ buff then .ok (buff.takeWhile (fun c => c ≠ NUL)) else .error .outOfBounds

/-- The delimiters given to `strtok`. -/
def isDelim (c : Char) : Bool := c = '\r' || c = '\n'

/-- The successive `strtok(buff, "\r\n")`, `strtok(NULL, "\r\n")` calls until one returns NULL:
the tokens in order and the buffer they leave behind, in which the delimiter that ended a token
is overwritten by NUL. `cur` holds the characters of the token being scanned. -/
def strtokAll : List Char → Option CStr → List CStr × List Char
  | [], cur => (cur.toList, [])
  | c :: rest, cur =>
    if c = NUL then (cur.toList, c :: rest)
    else if isDelim c then
      match cur with
      | none => ((strtokAll rest none).1, c :: (strtokAll rest none).2)
      | some t => (t :: (strtokAll rest none).1, NUL :: (strtokAll rest none).2)
    else
      ((strtokAll rest (some (cur.getD [] ++ [c]))).1,
        c :: (strtokAll rest (some (cur.getD [] ++ [c]))).2)

def CRLFCRLF : CStr := ['\r', '\n', '\r', '\n']

/-! ## `processRequest`, lines 163-231: receiving and parsing -/

/-- What the receive loop leaves for the rest of the handler. -/
structure Parsed (D : Type) where
  /-- The pointer `fileName`: `none` is NULL. -/
  fileName : Option CStr
  dict : D
  /-- The number of `recv` calls made. -/
  recvs : Nat

/-- Lines 196-231, from a call of `recv` on: every received buffer has its lines handed to
`dictionary_parse`, and the loop ends with the first buffer in which `strstr` finds the blank
line. `n` counts the `recv` calls made before. -/
def receiveRest {D : Type} (d : Dictionary D) :
    List Recv → List Char → D → Nat → Except Stop (D × Nat)
  | [], _, _, _ => .error .blocked
  | .error :: _, _, _, _ => .error .recvFailed
  | .data bytes :: socket, buff, dict, n =>
    match bufferString (recv buff bytes) with
    | .error e => .error e
    | .ok s =>
      if (strstr s CRLFCRLF).isSome then
        .ok ((strtokAll (recv buff bytes) none).1.foldl d.parse dict, n + 1)
      else
        receiveRest d socket (strtokAll (recv buff bytes) none).2
          ((strtokAll (recv buff bytes) none).1.foldl d.parse dict) (n + 1)

/-- Lines 165-231. The first token of the first buffer goes to `process_http_header_request`
(NULL when the buffer holds no token), the other tokens to `dictionary_parse`. -/
def receiveHeaders {D : Type} (d : Dictionary D) : List Recv → Except Stop (Parsed D)
  | [] => .error .blocked
  | .error :: _ => .error .recvFailed
  | .data bytes :: socket =>
    let buff := recv (List.replicate buffSize NUL) bytes
    match bufferString buff with
    | .error e => .error e
    | .ok s =>
      let tokens := (strtokAll buff none).1
      match tokens with
      | [] => .error .nullPointer
      | line :: lines =>
        match process_http_header_request line with
        | .error e => .error e
        | .ok fileName =>
          if (strstr s CRLFCRLF).isSome then
            .ok { fileName := fileName, dict := lines.foldl d.parse d.init, recvs := 1 }
          else
            match receiveRest d socket (strtokAll buff none).2
                (lines.foldl d.parse d.init) 1 with
            | .error e => .error e
            | .ok (dict, n) => .ok { fileName := fileName, dict := dict, recvs := n }

/-! ## `processRequest`, lines 233-284: the status -/

/-- The locals that lines 238-284 set. -/
structure Status where
  status_code : Int
  status_code_string : CStr
  /-- The variable `fileLength`: `none` while it was never assigned. -/
  fileLength : Option Int
  requestFile : FilePtr
  /-- The pointer `fileName` after the block: `none` is NULL. -/
  fileName : Option CStr
  /-- The path given to `fopen`, `none` when `fopen` was not called. -/
  opened : Option CStr
  deriving DecidableEq, Repr

/-- Lines 249-258: the string `newName` built from a non-NULL `fileName`. The first `strcat`
appends `"web"` to the fresh block, which holds the empty string. -/
def newName (fileName : CStr) : CStr :=
  "web".toList ++ (if strcmp fileName "/".toList = 0 then fileName ++ "index.html".toList
    else fileName)

/-- Lines 238-284. `fopen` gives the contents of the file at a path, `none` when it returns
NULL. -/
def selectStatus (fopen : CStr → Option (List Char)) : Option CStr → Status
  | none =>
    { status_code := 501, status_code_string := HTTP_501_STRING,
      fileLength := some (HTTP_501_STRING.length : Int), requestFile := .uninit,
      fileName := none, opened := none }
  | some fileName =>
    match fopen (newName fileName) with
    | none =>
      { status_code := 404, status_code_string := HTTP_404_STRING,
        fileLength := none, requestFile := .null,
        fileName := some (newName fileName), opened := some (newName fileName) }
    | some contents =>
      { status_code := 200, status_code_string := HTTP_200_STRING,
        fileLength := some (contents.length : Int), requestFile := .stream contents,
        fileName := some (newName fileName), opened := some (newName fileName) }

/-! ## `processRequest`, lines 286-340: the headers -/

/-- Lines 287-303: the value of `content_type`. For status 200 the extension is
`strrchr(fileName, '.')`, and `strcmp` reads through it also when it is NULL. -/
def contentType (status_code : Int) (fileName : Option CStr) : Except Stop CStr :=
  if status_code = 200 then
    match fileName.bind (fun f => strrchr f '.') with
    | none => .error .nullPointer
    | some ext =>
      if strcmp ext ".html".toList = 0 then .ok "text/html".toList
      else if strcmp ext ".css".toList = 0 then .ok "text/css".toList
      else if strcmp ext ".jpg".toList = 0 then .ok "image/jpeg".toList
      else if strcmp ext ".png".toList = 0 then .ok "image/png".toList
      else .ok "text/plain".toList
  else .ok "text/html".toList

/-- Lines 306-310: `response` after the first `sprintf`, format `"%s %d %s\r\n"`. -/
def statusLine (status_code : Int) (status_code_string : CStr) : CStr :=
  "HTTP/1.1".toList ++ " ".toList ++ decimal status_code ++ " ".toList ++ status_code_string ++
    "\r\n".toList

/-- Lines 312-315: the `Content-Type` line is appended, format `"%s%s%s\r\n"`. -/
def addContentType (response content_type : CStr) : CStr :=
  response ++ "Content-Type: ".toList ++ content_type ++ "\r\n".toList

/-- Lines 317-326: the `Content-Length` line is appended, format `"%s%s%d\r\n"`. -/
def addContentLength (response : CStr) (fileLength : Int) : CStr :=
  response ++ "Content-Length: ".toList ++ decimal fileLength ++ "\r\n".toList

/-- Lines 329-333: the value of `result`, from what `dictionary_get(dict, "Connection")`
returned. `strcasecmp` reads through the pointer also when it is NULL. -/
def connectionValue : Option CStr → Except Stop CStr
  | none => .error .nullPointer
  | some result =>
    if strcasecmp result "Keep-Alive".toList ≠ 0 then .ok "close".toList
    else .ok "Keep-Alive".toList

/-- Lines 334-336: the `Connection` line is appended, format `"%s%s%s\r\n"`. -/
def addConnection (response result : CStr) : CStr :=
  response ++ "Connection: ".toList ++ result ++ "\r\n".toList

/-- Lines 338-340: the blank line is appended, format `"%s\r\n"`. -/
def addBlankLine (response : CStr) : CStr := response ++ "\r\n".toList

/-- Lines 286-340: `response` when line 340 is done. `connection` is what
`dictionary_get(dict, "Connection")` returned. -/
def assembleHeaders (st : Status) (connection : Option CStr) : Except Stop CStr :=
  match contentType st.status_code st.fileName with
  | .error e => .error e
  | .ok content_type =>
    match st.fileLength with
    | none => .error .uninitialised
    | some fileLength =>
      match connectionValue connection with
      | .error e => .error e
      | .ok result =>
        .ok (addBlankLine (addConnection (addContentLength
          (addContentType (statusLine st.status_code st.status_code_string) content_type)
          fileLength) result))

/-! ## `processRequest`, lines 342-358: the body and the send -/

/-- Lines 343-347: what `sprintf` appends for `read` with `%s`. `fread` copies `fileLength` bytes
of the stream into the block, and `%s` copies the bytes before the first NUL. -/
def readBody (fileLength : Int) : FilePtr → Except Stop CStr
  | .uninit => .error .uninitialised
  | .null => .error .nullPointer
  | .stream contents => .ok ((contents.take fileLength.toNat).takeWhile (fun c => c ≠ NUL))

/-- Lines 286-347: `response` when line 347 is done. -/
def assembleResponse (st : Status) (connection : Option CStr) : Except Stop CStr :=
  match assembleHeaders st connection with
  | .error e => .error e
  | .ok headers =>
    match readBody (st.fileLength.getD 0) st.requestFile with
    | .error e => .error e
    | .ok body => .ok (headers ++ body)

/-- Line 351: the `strlen(response) + 1` bytes handed to `send`. -/
def sendBytes (response : CStr) : List Char := response ++ [NUL]

/-- The handler `processRequest`: the bytes it hands to `send`, or why it stopped before. -/
def processRequest {D : Type} (d : Dictionary D) (fopen : CStr → Option (List Char))
    (socket : List Recv) : Except Stop (List Char) :=
  match receiveHeaders d socket with
  | .error e => .error e
  | .ok parsed =>
    match assembleResponse (selectStatus fopen parsed.fileName)
        (d.get parsed.dict "Connection".toList) with
    | .error e => .error e
    | .ok response => .ok (sendBytes response)

/-! ## A dictionary and a document root to run the handler on -/

/-- Modelled from the spec: the header map of `libdictionary.h`, which is not part of the
sources. A line is split at its first colon, one blank after the colon is dropped, the value is
stored under the key and replaces an earlier value; a line without a colon is skipped. -/
def listDictionary : Dictionary (List (CStr × CStr)) where
  init := []
  parse := fun dict line =>
    if ':' ∈ line then
      let key := line.takeWhile (fun c => c ≠ ':')
      let rest := (line.dropWhile (fun c => c ≠ ':')).drop 1
      let value := if rest.head? = some ' ' then rest.drop 1 else rest
      (key, value) :: dict.filter (fun kv => kv.1 ≠ key)
    else dict
  get := fun dict key => (dict.find? (fun kv => kv.1 = key)).map (fun kv => kv.2)


/-- A document root with two files: `web/index.html` holds 13 characters of text, `web/logo.png`
holds 8 bytes, the fourth of which is 0. -/
def documentRoot (path : CStr) : Option (List Char) :=
  if path = "web/index.html".toList then some "Hello, world!".toList
  else if path = "web/logo.png".toList then some ("PNG".toList ++ [NUL] ++ "IHDR".toList)
  else none

/-- A document root with one file, `web/README`, of 5 characters. -/
def readmeRoot (path : CStr) : Option (List Char) :=
  if path = "web/README".toList then some "hello".toList else none

/-! ## The sizes that `processRequest` requests for `response` -/

/-- Lines 307-308: the number of bytes given to `malloc` for the status line. -/
def statusLineAlloc (status_code_string : CStr) : Nat :=
  status_code_string.length + "HTTP/1.1".toList.length + 4 + 1

/-- Lines 320-321: the loop `for(i = fileLength; i>0; i/=10) intLength++`, from the values `i`
and `intLength` on, for at most `fuel` rounds. -/
def intLengthLoop : Nat → Int → Int → Int
  | 0, _, intLength => intLength
  | fuel + 1, i, intLength =>
    if i > 0 then intLengthLoop fuel (Int.tdiv i 10) (intLength + 1) else intLength

/-- Lines 318-323: the value of `intLength` when line 323 is done. The loop is given
`fileLength` rounds. -/
def intLength (fileLength : Int) : Int :=
  if fileLength = 0 then 1 else intLengthLoop fileLength.toNat fileLength 0

/-- Lines 324-325: the number of bytes given to `realloc` for the `Content-Length` line. -/
def contentLengthAlloc (response : CStr) (fileLength : Int) : Int :=
  (response.length : Int) + ("Content-Length: ".toList.length : Int) + intLength fileLength + 2 + 1

/-! ## Facts about the string functions -/

theorem strncmp_eq_zero_iff (a b : CStr) (n : Nat) :
    strncmp a b n = 0 ↔ a.take n = b.take n := by
  induction n generalizing a b with
  | zero => simp [strncmp]
  | succ n ih =>
    cases a with
    | nil => cases b <;> simp [strncmp]
    | cons x xs =>
      cases b with
      | nil => simp [strncmp]
      | cons y ys =>
        by_cases h : x = y
        · simp [strncmp, h, ih]
        · by_cases h2 : x.toNat < y.toNat <;> simp [strncmp, h, h2]

theorem strcmp_eq_zero_iff (a b : CStr) : strcmp a b = 0 ↔ a = b := by
  induction a generalizing b with
  | nil => cases b <;> simp [strcmp]
  | cons x xs ih =>
    cases b with
    | nil => simp [strcmp]
    | cons y ys =>
      by_cases h : x = y
      · simp [strcmp, h, ih]
      · by_cases h2 : x.toNat < y.toNat <;> simp [strcmp, h, h2]

theorem strcasecmp_eq_zero_iff (a b : CStr) :
    strcasecmp a b = 0 ↔ a.map Char.toLower = b.map Char.toLower := by
  induction a generalizing b with
  | nil => cases b <;> simp [strcasecmp]
  | cons x xs ih =>
    cases b with
    | nil => simp [strcasecmp]
    | cons y ys =>
      by_cases h : x.toLower = y.toLower
      · simp [strcasecmp, h, ih]
      · by_cases h2 : x.toLower.toNat < y.toLower.toNat <;> simp [strcasecmp, h, h2]

theorem strstr_isSome_iff (h n : CStr) : (strstr h n).isSome ↔ n <:+: h := by
  induction h with
  | nil =>
    by_cases hn : n = [] <;> simp [strstr, hn]
  | cons c t ih =>
    rw [strstr]
    by_cases hp : n.isPrefixOf (c :: t) = true
    · simp only [hp, if_true, Option.isSome_some, true_iff]
      exact (List.isPrefixOf_iff_prefix.mp hp).isInfix
    · have hf : n.isPrefixOf (c :: t) = false := Bool.eq_false_iff.mpr hp
      rw [hf, if_neg (by simp), ih, List.infix_cons_iff]
      have : ¬ n <+: c :: t := fun hh => hp (List.isPrefixOf_iff_prefix.mpr hh)
      tauto

theorem strstr_eq_none_iff (h n : CStr) : strstr h n = none ↔ ¬ n <:+: h := by
  rw [← strstr_isSome_iff]
  cases strstr h n <;> simp

/-- A line that begins with `"GET "` is never found inside a one-character haystack: both
`assert`s of the parser pass. -/
theorem strstr_short_haystack (c : Char) (request : CStr) (h : "GET ".toList <+: request) :
    strstr [c] request = none := by
  rw [strstr_eq_none_iff]
  intro hin
  have h1 := hin.length_le
  have h2 := h.length_le
  simp at h1 h2
  omega

theorem strncmp_get (request : CStr) :
    strncmp request "GET ".toList 4 = 0 ↔ "GET ".toList <+: request := by
  rw [strncmp_eq_zero_iff, List.prefix_iff_eq_take]
  simp [eq_comm]

/-- What the parser does with a line that begins with `"GET "`. -/
theorem process_get (request : CStr) (h : "GET ".toList <+: request) :
    process_http_header_request request =
      if request.length < 13 then .error .outOfBounds
      else if "..".toList <:+: (request.drop 4).take (request.length - 13) then .ok none
      else .ok (some ((request.drop 4).take (request.length - 13))) := by
  have h0 : strncmp request "GET ".toList 4 = 0 := (strncmp_get request).mpr h
  have hn : strstr "\n".toList request = none := strstr_short_haystack _ _ h
  have hr : strstr "\r".toList request = none := strstr_short_haystack _ _ h
  unfold process_http_header_request
  simp only [h0, ne_eq, not_true_eq_false, if_false, hn, hr, Option.isSome_none,
    Bool.false_eq_true]
  by_cases hl : request.length < 13
  · have : requestLen request < 0 := by unfold requestLen; omega
    simp [hl, this]
  · have h1 : ¬ requestLen request < 0 := by unfold requestLen; omega
    have h2 : (requestLen request).toNat = request.length - 13 := by unfold requestLen; omega
    simp only [hl, h1, if_false, h2, strstr_isSome_iff]

/-- What the parser does with a line made of `"GET "`, a path and nine more characters. -/
theorem process_get_path (p v : CStr) (hv : v.length = 9) :
    process_http_header_request ("GET ".toList ++ p ++ v) =
      if "..".toList <:+: p then .ok none else .ok (some p) := by
  have hpre : "GET ".toList <+: "GET ".toList ++ p ++ v := by
    rw [List.append_assoc]; exact List.prefix_append _ _
  rw [process_get _ hpre]
  have hl : ("GET ".toList ++ p ++ v).length = p.length + 13 := by
    simp [hv]
  have hd : (("GET ".toList ++ p ++ v).drop 4).take (("GET ".toList ++ p ++ v).length - 13) = p := by
    rw [hl, List.append_assoc]
    have : ("GET ".toList ++ (p ++ v)).drop 4 = p ++ v := by
      rw [List.drop_append_of_le_length] <;> simp
    rw [this]
    simp
  rw [hd, hl]
  simp

/-- What the parser does with a line that does not begin with `"GET "`. -/
theorem process_not_get (request : CStr) (h : ¬ "GET ".toList <+: request) :
    process_http_header_request request = .ok none := by
  have h0 : strncmp request "GET ".toList 4 ≠ 0 := fun hh => h ((strncmp_get request).mp hh)
  unfold process_http_header_request
  rw [if_pos h0]

/-! ## The request line -/

/-- C1: a filename that `process_http_header_request` returns never contains `..`; a line that
begins with `"GET "` and whose path portion, the characters between `"GET "` and the last nine,
contains `..` gets NULL; and with a NULL filename `processRequest` sets status 501, keeps
`fileName` NULL and does not call `fopen`. -/
theorem filename_without_parent_directory (request : CStr)
    (fopen : CStr → Option (List Char)) :
    (∀ f, process_http_header_request request = .ok (some f) → ¬ "..".toList <:+: f) ∧
    ("GET ".toList <+: request →
      "..".toList <:+: (request.drop 4).take (request.length - 13) →
      process_http_header_request request = .ok none) ∧
    (selectStatus fopen none).status_code = 501 ∧
    (selectStatus fopen none).fileName = none ∧
    (selectStatus fopen none).opened = none := by
  refine ⟨?_, ?_, rfl, rfl, rfl⟩
  · intro f hf
    by_cases hget : "GET ".toList <+: request
    · rw [process_get request hget] at hf
      by_cases hl : request.length < 13
      · rw [if_pos hl] at hf
        cases hf
      · by_cases hd : "..".toList <:+: (request.drop 4).take (request.length - 13)
        · rw [if_neg hl, if_pos hd] at hf
          cases hf
        · rw [if_neg hl, if_neg hd] at hf
          cases hf
          exact hd
    · rw [process_not_get request hget] at hf
      simp at hf
  · intro hget hd
    rw [process_get request hget]
    have hl : ¬ request.length < 13 := by
      intro hl
      have h0 : request.length - 13 = 0 := by omega
      rw [h0] at hd
      have := hd.length_le
      simp at this
    rw [if_neg hl, if_pos hd]

theorem filename_without_parent_directory_witness :
    ¬ "..".toList <:+: "/index.html".toList ∧
    process_http_header_request "GET /../server.c HTTP/1.1".toList = .ok none :=
  ⟨(filename_without_parent_directory "GET /index.html HTTP/1.1".toList (fun _ => none)).1
      "/index.html".toList (by decide),
   (filename_without_parent_directory "GET /../server.c HTTP/1.1".toList (fun _ => none)).2.1
      (by decide) (by decide)⟩

/-- C2: a line whose first four characters are not `"GET "` gets NULL from
`process_http_header_request`, and with a NULL filename `processRequest` sets the status code
501 and the reason phrase `Not Implemented`, so that the status line it formats is
`HTTP/1.1 501 Not Implemented\r\n`. -/
theorem other_method_is_not_implemented (request : CStr) (h : request.take 4 ≠ "GET ".toList)
    (fopen : CStr → Option (List Char)) :
    process_http_header_request request = .ok none ∧
    (selectStatus fopen none).status_code = 501 ∧
    (selectStatus fopen none).status_code_string = "Not Implemented".toList ∧
    statusLine (selectStatus fopen none).status_code (selectStatus fopen none).status_code_string
      = "HTTP/1.1 501 Not Implemented\r\n".toList := by
  refine ⟨?_, rfl, rfl, ?_⟩
  · apply process_not_get
    intro hget
    apply h
    rw [List.prefix_iff_eq_take] at hget
    simpa using hget.symm
  · show statusLine 501 HTTP_501_STRING = "HTTP/1.1 501 Not Implemented\r\n".toList
    decide

theorem other_method_is_not_implemented_witness :
    process_http_header_request "POST / HTTP/1.1".toList = .ok none :=
  (other_method_is_not_implemented "POST / HTTP/1.1".toList (by decide) (fun _ => none)).1

/-- C4: for a path `p` without `..`, the line `"GET " ++ p ++ " HTTP/1.1"` gives exactly `p`,
whatever else `p` contains, blanks included. -/
theorem path_between_method_and_version (p : CStr) (h : ¬ "..".toList <:+: p) :
    process_http_header_request ("GET ".toList ++ p ++ " HTTP/1.1".toList) = .ok (some p) := by
  rw [process_get_path p _ (by decide), if_neg h]

theorem path_between_method_and_version_witness :
    process_http_header_request ("GET ".toList ++ "/my file.html".toList ++ " HTTP/1.1".toList)
      = .ok (some "/my file.html".toList) :=
  path_between_method_and_version "/my file.html".toList (by decide)

/-- C9, as the claim states it, fails: the line `GET /index.html` begins with `"GET "` and has no
version token at its end, and the parser returns the filename `/i` for it. -/
theorem line_without_version_gets_filename :
    "GET ".toList <+: "GET /index.html".toList ∧
    ¬ " HTTP/1.1".toList <:+ "GET /index.html".toList ∧
    process_http_header_request "GET /index.html".toList = .ok (some "/i".toList) ∧
    process_http_header_request "GET /index.html".toList ≠ .ok none := by
  decide

/-- C9, amended: for a line made of `"GET "`, a path and nine more characters, the parser does
not look at the nine characters: it returns NULL exactly when the path contains `..` and returns
the path otherwise; and with what the parser returns for such a line, `processRequest` sets the
status code 501 exactly when the path contains `..`, then with the reason phrase
`Not Implemented` and without a call of `fopen`. -/
theorem last_nine_characters_dropped (p v : CStr) (hv : v.length = 9) :
    (process_http_header_request ("GET ".toList ++ p ++ v) = .ok none ↔ "..".toList <:+: p) ∧
    (¬ "..".toList <:+: p →
      process_http_header_request ("GET ".toList ++ p ++ v) = .ok (some p)) ∧
    (∀ fopen, (selectStatus fopen none).status_code = 501) ∧
    (∀ (fopen : CStr → Option (List Char)) (fileName : Option CStr),
      process_http_header_request ("GET ".toList ++ p ++ v) = .ok fileName →
      ((selectStatus fopen fileName).status_code = 501 ↔ "..".toList <:+: p) ∧
      ("..".toList <:+: p →
        (selectStatus fopen fileName).status_code_string = "Not Implemented".toList ∧
        (selectStatus fopen fileName).opened = none)) := by
  rw [process_get_path p v hv]
  refine ⟨?_, ?_, fun _ => rfl, ?_⟩
  · by_cases hd : "..".toList <:+: p <;> simp [hd]
  · by_cases hd : "..".toList <:+: p <;> simp [hd]
  · intro fopen fileName hf
    by_cases hd : "..".toList <:+: p
    · rw [if_pos hd] at hf
      cases hf
      exact ⟨⟨fun _ => hd, fun _ => rfl⟩, fun _ => ⟨rfl, rfl⟩⟩
    · rw [if_neg hd] at hf
      cases hf
      refine ⟨⟨fun h501 => ?_, fun h => absurd h hd⟩, fun h => absurd h hd⟩
      exfalso
      simp only [selectStatus] at h501
      split at h501 <;> simp at h501

theorem last_nine_characters_dropped_witness :
    process_http_header_request ("GET ".toList ++ "/a.css".toList ++ "XXXXXXXXX".toList)
      = .ok (some "/a.css".toList) ∧
    (selectStatus documentRoot none).status_code = 501 ∧
    (selectStatus documentRoot none).status_code_string = "Not Implemented".toList ∧
    (selectStatus documentRoot none).opened = none :=
  ⟨(last_nine_characters_dropped "/a.css".toList "XXXXXXXXX".toList (by decide)).2.1 (by decide),
   ((last_nine_characters_dropped "/../a".toList "XXXXXXXXX".toList (by decide)).2.2.2
      documentRoot none (by decide)).1.mpr (by decide),
   ((last_nine_characters_dropped "/../a".toList "XXXXXXXXX".toList (by decide)).2.2.2
      documentRoot none (by decide)).2 (by decide)⟩

/-! ## The status and the path -/

theorem selectStatus_opened (fopen : CStr → Option (List Char)) (f : CStr) :
    (selectStatus fopen (some f)).opened = some (newName f) := by
  simp only [selectStatus]
  split <;> rfl

/-- C5: for the filename `/` the path given to `fopen` is `web/index.html`, the same as for the
filename `/index.html`, and for every other filename `f` it is `"web" ++ f`. -/
theorem root_path_opens_index (fopen : CStr → Option (List Char)) :
    (selectStatus fopen (some "/".toList)).opened = some "web/index.html".toList ∧
    (selectStatus fopen (some "/index.html".toList)).opened = some "web/index.html".toList ∧
    (∀ f : CStr, f ≠ "/".toList →
      (selectStatus fopen (some f)).opened = some ("web".toList ++ f)) := by
  refine ⟨?_, ?_, ?_⟩
  · rw [selectStatus_opened]; decide
  · rw [selectStatus_opened]; decide
  · intro f hf
    have h : strcmp f "/".toList ≠ 0 := fun h0 => hf ((strcmp_eq_zero_iff _ _).mp h0)
    rw [selectStatus_opened, newName, if_neg h]

theorem root_path_opens_index_witness :
    (selectStatus documentRoot (some "/style.css".toList)).opened
      = some ("web".toList ++ "/style.css".toList) :=
  (root_path_opens_index documentRoot).2.2 "/style.css".toList (by decide)

/-! ## The content type -/

theorem strrchr_eq_none_iff (s : CStr) (c : Char) : strrchr s c = none ↔ c ∉ s := by
  induction s with
  | nil => simp [strrchr]
  | cons d t ih =>
    rw [strrchr]
    cases hr : strrchr t c with
    | some r =>
      have : ¬ c ∉ t := fun hc => by rw [ih.mpr hc] at hr; cases hr
      simp only [List.mem_cons, not_or]
      constructor
      · intro h; cases h
      · intro h; exact absurd h.2 this
    | none =>
      have hc : c ∉ t := ih.mp hr
      by_cases hd : d = c
      · simp [hd]
      · have : ¬ c = d := fun h => hd h.symm
        simp [hd, hc, this]

/-- A string that starts with `c` and has no other `c` is a suffix of `s` exactly when it is what
`strrchr(s, c)` points at. -/
theorem strrchr_eq_some_iff (s e : CStr) (c : Char) (he : c ∉ e) :
    strrchr s c = some (c :: e) ↔ (c :: e) <:+ s := by
  induction s with
  | nil => simp [strrchr]
  | cons d t ih =>
    rw [strrchr, List.suffix_cons_iff]
    cases hr : strrchr t c with
    | some r =>
      have hct : c ∈ t := by
        by_contra hc
        rw [(strrchr_eq_none_iff t c).mpr hc] at hr
        cases hr
      rw [hr] at ih
      constructor
      · intro h
        exact Or.inr (ih.mp h)
      · rintro (h | h)
        · exfalso
          have : e = t := (List.cons.inj h).2
          exact he (this ▸ hct)
        · exact ih.mpr h
    | none =>
      have hct : c ∉ t := (strrchr_eq_none_iff t c).mp hr
      have hsuf : ¬ (c :: e) <:+ t := fun h => hct (h.subset (List.mem_cons_self c e))
      by_cases hd : d = c
      · subst hd
        simp only [if_true, Option.some.injEq]
        constructor
        · intro h; exact Or.inl h.symm
        · rintro (h | h)
          · exact h.symm
          · exact absurd h hsuf
      · simp only [hd, if_false]
        constructor
        · intro h; cases h
        · rintro (h | h)
          · exact absurd (List.cons.inj h).1.symm hd
          · exact absurd h hsuf

/-- The content type of a 200 response, from the extension that `strrchr` finds. -/
theorem contentType_of_ext (name ext : CStr) (h : strrchr name '.' = some ext) :
    contentType 200 (some name) =
      .ok (if ext = ".html".toList then "text/html".toList
        else if ext = ".css".toList then "text/css".toList
        else if ext = ".jpg".toList then "image/jpeg".toList
        else if ext = ".png".toList then "image/png".toList
        else "text/plain".toList) := by
  simp only [contentType, if_true, Option.bind, h, strcmp_eq_zero_iff]
  split_ifs <;> rfl

theorem contentType_of_suffix (name e t : CStr) (he : '.' ∉ e) (hs : ('.' :: e) <:+ name)
    (ht : (if ('.' :: e) = ".html".toList then "text/html".toList
        else if ('.' :: e) = ".css".toList then "text/css".toList
        else if ('.' :: e) = ".jpg".toList then "image/jpeg".toList
        else if ('.' :: e) = ".png".toList then "image/png".toList
        else "text/plain".toList) = t) :
    contentType 200 (some name) = .ok t := by
  rw [contentType_of_ext name ('.' :: e) ((strrchr_eq_some_iff name e '.' he).mpr hs), ht]

/-- C6: for a 200 response whose file name contains a `.`, the content type is `text/html`,
`text/css`, `image/jpeg` or `image/png` when the name ends in `.html`, `.css`, `.jpg` or `.png`,
and `text/plain` when it ends in none of them; for status 404 and 501 it is `text/html`. -/
theorem content_type_from_extension (name : CStr) (hdot : '.' ∈ name) :
    (".html".toList <:+ name → contentType 200 (some name) = .ok "text/html".toList) ∧
    (".css".toList <:+ name → contentType 200 (some name) = .ok "text/css".toList) ∧
    (".jpg".toList <:+ name → contentType 200 (some name) = .ok "image/jpeg".toList) ∧
    (".png".toList <:+ name → contentType 200 (some name) = .ok "image/png".toList) ∧
    (¬ ".html".toList <:+ name → ¬ ".css".toList <:+ name → ¬ ".jpg".toList <:+ name →
      ¬ ".png".toList <:+ name → contentType 200 (some name) = .ok "text/plain".toList) ∧
    (∀ fileName, contentType 404 fileName = .ok "text/html".toList) ∧
    (∀ fileName, contentType 501 fileName = .ok "text/html".toList) := by
  refine ⟨?_, ?_, ?_, ?_, ?_, fun _ => rfl, fun _ => rfl⟩
  · intro h
    exact contentType_of_suffix name "html".toList _ (by decide) h (by decide)
  · intro h
    exact contentType_of_suffix name "css".toList _ (by decide) h (by decide)
  · intro h
    exact contentType_of_suffix name "jpg".toList _ (by decide) h (by decide)
  · intro h
    exact contentType_of_suffix name "png".toList _ (by decide) h (by decide)
  · intro h1 h2 h3 h4
    cases hr : strrchr name '.' with
    | none => exact absurd hdot ((strrchr_eq_none_iff name '.').mp hr)
    | some ext =>
      rw [contentType_of_ext name ext hr]
      have e1 : ext ≠ ".html".toList := fun h =>
        h1 ((strrchr_eq_some_iff name "html".toList '.' (by decide)).mp (by rw [hr, h]; rfl))
      have e2 : ext ≠ ".css".toList := fun h =>
        h2 ((strrchr_eq_some_iff name "css".toList '.' (by decide)).mp (by rw [hr, h]; rfl))
      have e3 : ext ≠ ".jpg".toList := fun h =>
        h3 ((strrchr_eq_some_iff name "jpg".toList '.' (by decide)).mp (by rw [hr, h]; rfl))
      have e4 : ext ≠ ".png".toList := fun h =>
        h4 ((strrchr_eq_some_iff name "png".toList '.' (by decide)).mp (by rw [hr, h]; rfl))
      rw [if_neg e1, if_neg e2, if_neg e3, if_neg e4]

theorem content_type_from_extension_witness :
    contentType 200 (some "web/logo.png".toList) = .ok "image/png".toList ∧
    contentType 200 (some "web/notes.txt".toList) = .ok "text/plain".toList :=
  ⟨(content_type_from_extension "web/logo.png".toList (by decide)).2.2.2.1 (by decide),
   (content_type_from_extension "web/notes.txt".toList (by decide)).2.2.2.2.1
     (by decide) (by decide) (by decide) (by decide)⟩

/-! ## The headers -/

/-- C7: when `dictionary_get(dict, "Connection")` returns a value `v`, the value of `result` is
`Keep-Alive` if `v` equals `Keep-Alive` up to the case of its letters and `close` otherwise;
every completed block of headers ends with the `Connection` line that holds this value; the
headers are completed, with this line, whenever the content type was chosen and `fileLength`
was assigned; and a run of `processRequest` that parsed its request into such a dictionary and
read its body hands `send` the response with this line. -/
theorem connection_value_echoed {D : Type} (d : Dictionary D) (dict : D) (v : CStr)
    (h : d.get dict "Connection".toList = some v) :
    connectionValue (d.get dict "Connection".toList) =
      .ok (if v.map Char.toLower = "Keep-Alive".toList.map Char.toLower
        then "Keep-Alive".toList else "close".toList) ∧
    (∀ st response, assembleHeaders st (d.get dict "Connection".toList) = .ok response →
      ("Connection: ".toList ++
        (if v.map Char.toLower = "Keep-Alive".toList.map Char.toLower
          then "Keep-Alive".toList else "close".toList) ++ "\r\n\r\n".toList) <:+ response) ∧
    (∀ (st : Status) (type : CStr) (n : Int),
      contentType st.status_code st.fileName = .ok type → st.fileLength = some n →
      assembleHeaders st (d.get dict "Connection".toList) =
        .ok (addContentLength (addContentType
            (statusLine st.status_code st.status_code_string) type) n ++
          "Connection: ".toList ++
          (if v.map Char.toLower = "Keep-Alive".toList.map Char.toLower
            then "Keep-Alive".toList else "close".toList) ++ "\r\n".toList ++ "\r\n".toList)) ∧
    (∀ (fopen : CStr → Option (List Char)) (socket : List Recv) (parsed : Parsed D)
        (type : CStr) (n : Int) (body : CStr),
      receiveHeaders d socket = .ok parsed → parsed.dict = dict →
      contentType (selectStatus fopen parsed.fileName).status_code
        (selectStatus fopen parsed.fileName).fileName = .ok type →
      (selectStatus fopen parsed.fileName).fileLength = some n →
      readBody n (selectStatus fopen parsed.fileName).requestFile = .ok body →
      processRequest d fopen socket =
        .ok (addContentLength (addContentType
            (statusLine (selectStatus fopen parsed.fileName).status_code
              (selectStatus fopen parsed.fileName).status_code_string) type) n ++
          "Connection: ".toList ++
          (if v.map Char.toLower = "Keep-Alive".toList.map Char.toLower
            then "Keep-Alive".toList else "close".toList) ++ "\r\n".toList ++ "\r\n".toList ++
          body ++ [NUL])) := by
  have hc : connectionValue (some v) =
      .ok (if v.map Char.toLower = "Keep-Alive".toList.map Char.toLower
        then "Keep-Alive".toList else "close".toList) := by
    simp only [connectionValue, ne_eq, strcasecmp_eq_zero_iff]
    split_ifs <;> rfl
  have hdone : ∀ (st : Status) (type : CStr) (n : Int),
      contentType st.status_code st.fileName = .ok type → st.fileLength = some n →
      assembleHeaders st (some v) =
        .ok (addContentLength (addContentType
            (statusLine st.status_code st.status_code_string) type) n ++
          "Connection: ".toList ++
          (if v.map Char.toLower = "Keep-Alive".toList.map Char.toLower
            then "Keep-Alive".toList else "close".toList) ++ "\r\n".toList ++ "\r\n".toList) := by
    intro st type n hct hfl
    unfold assembleHeaders
    rw [hct, hfl, hc]
    rfl
  rw [h]
  refine ⟨hc, ?_, hdone, ?_⟩
  · intro st response hr
    unfold assembleHeaders at hr
    rw [hc] at hr
    cases hct : contentType st.status_code st.fileName with
    | error e => rw [hct] at hr; cases hr
    | ok ct =>
      cases hfl : st.fileLength with
      | none => rw [hct, hfl] at hr; cases hr
      | some n =>
        rw [hct, hfl] at hr
        simp only [Except.ok.injEq] at hr
        rw [← hr]
        refine ⟨addContentLength (addContentType
          (statusLine st.status_code st.status_code_string) ct) n, ?_⟩
        simp [addBlankLine, addConnection]
  · intro fopen socket parsed type n body hrecv hdict hct hfl hbody
    unfold processRequest
    rw [hrecv]
    simp only
    rw [hdict, h]
    unfold assembleResponse
    rw [hdone _ type n hct hfl, hfl]
    simp only [Option.getD_some]
    rw [hbody]
    rfl

theorem connection_value_echoed_witness :
    connectionValue (listDictionary.get (listDictionary.parse [] "Connection: keep-alive".toList)
      "Connection".toList) = .ok "Keep-Alive".toList ∧
    assembleHeaders (selectStatus documentRoot (some "/".toList))
      (listDictionary.get (listDictionary.parse [] "Connection: keep-alive".toList)
        "Connection".toList) =
      .ok ("HTTP/1.1 200 OK\r\nContent-Type: text/html\r\nContent-Length: 13\r\n" ++
        "Connection: Keep-Alive\r\n\r\n").toList ∧
    processRequest listDictionary documentRoot
      [.data "GET / HTTP/1.1\r\nConnection: keep-alive\r\n\r\n".toList] =
      .ok (("HTTP/1.1 200 OK\r\nContent-Type: text/html\r\nContent-Length: 13\r\n" ++
        "Connection: Keep-Alive\r\n\r\n" ++ "Hello, world!").toList ++ [NUL]) :=
  ⟨(connection_value_echoed listDictionary
      (listDictionary.parse [] "Connection: keep-alive".toList) "keep-alive".toList
      (by decide)).1,
   ((connection_value_echoed listDictionary
      (listDictionary.parse [] "Connection: keep-alive".toList) "keep-alive".toList
      (by decide)).2.2.1 (selectStatus documentRoot (some "/".toList)) "text/html".toList 13
      (by decide) (by decide)).trans (by decide),
   ((connection_value_echoed listDictionary
      (listDictionary.parse [] "Connection: keep-alive".toList) "keep-alive".toList
      (by decide)).2.2.2 documentRoot
      [.data "GET / HTTP/1.1\r\nConnection: keep-alive\r\n\r\n".toList]
      { fileName := some "/".toList,
        dict := listDictionary.parse [] "Connection: keep-alive".toList, recvs := 1 }
      "text/html".toList 13 "Hello, world!".toList
      rfl rfl (by decide) (by decide) (by decide)).trans (by decide)⟩

/-- C8: the headers that `processRequest` assembles are the status line, the `Content-Type`
line, the `Content-Length` line, the `Connection` line and the blank line, in this order and
with nothing else; the body follows them; and the status code and reason phrase that lines
238-284 set are 200 with `OK`, 404 with `Not Found` or 501 with `Not Implemented`. -/
theorem header_bytes_in_order (st : Status) (connection : Option CStr) (headers : CStr)
    (h : assembleHeaders st connection = .ok headers) :
    (∃ type n conn, contentType st.status_code st.fileName = .ok type ∧
      st.fileLength = some n ∧ connectionValue connection = .ok conn ∧
      headers = "HTTP/1.1 ".toList ++ decimal st.status_code ++ " ".toList ++
        st.status_code_string ++ "\r\n".toList ++
        "Content-Type: ".toList ++ type ++ "\r\n".toList ++
        "Content-Length: ".toList ++ decimal n ++ "\r\n".toList ++
        "Connection: ".toList ++ conn ++ "\r\n".toList ++ "\r\n".toList) ∧
    (∀ response, assembleResponse st connection = .ok response →
      ∃ body, response = headers ++ body) ∧
    (∀ fopen fileName, st = selectStatus fopen fileName →
      (st.status_code = 200 ∧ st.status_code_string = "OK".toList) ∨
      (st.status_code = 404 ∧ st.status_code_string = "Not Found".toList) ∨
      (st.status_code = 501 ∧ st.status_code_string = "Not Implemented".toList)) := by
  refine ⟨?_, ?_, ?_⟩
  · unfold assembleHeaders at h
    cases hct : contentType st.status_code st.fileName with
    | error e => rw [hct] at h; cases h
    | ok type =>
      cases hfl : st.fileLength with
      | none => rw [hct, hfl] at h; cases h
      | some n =>
        cases hcv : connectionValue connection with
        | error e => rw [hct, hfl, hcv] at h; cases h
        | ok conn =>
          rw [hct, hfl, hcv] at h
          simp only [Except.ok.injEq] at h
          refine ⟨type, n, conn, rfl, rfl, rfl, ?_⟩
          rw [← h]
          simp [addBlankLine, addConnection, addContentLength, addContentType, statusLine]
  · intro response hr
    unfold assembleResponse at hr
    rw [h] at hr
    cases hb : readBody (st.fileLength.getD 0) st.requestFile with
    | error e => rw [hb] at hr; cases hr
    | ok body =>
      rw [hb] at hr
      simp only [Except.ok.injEq] at hr
      exact ⟨body, hr.symm⟩
  · intro fopen fileName hst
    subst hst
    cases fileName with
    | none => exact Or.inr (Or.inr ⟨rfl, rfl⟩)
    | some f =>
      simp only [selectStatus]
      split
      · exact Or.inr (Or.inl ⟨rfl, rfl⟩)
      · exact Or.inl ⟨rfl, rfl⟩

theorem header_bytes_in_order_witness :
    ((selectStatus documentRoot (some "/".toList)).status_code = 200 ∧
      (selectStatus documentRoot (some "/".toList)).status_code_string = "OK".toList) ∨
    ((selectStatus documentRoot (some "/".toList)).status_code = 404 ∧
      (selectStatus documentRoot (some "/".toList)).status_code_string = "Not Found".toList) ∨
    ((selectStatus documentRoot (some "/".toList)).status_code = 501 ∧
      (selectStatus documentRoot (some "/".toList)).status_code_string =
        "Not Implemented".toList) :=
  (header_bytes_in_order (selectStatus documentRoot (some "/".toList)) (some "close".toList)
    ("HTTP/1.1 200 OK\r\nContent-Type: text/html\r\nContent-Length: 13\r\n" ++
        "Connection: close\r\n\r\n").toList (by decide)).2.2 documentRoot (some "/".toList) rfl

/-! ## The body -/

/-- C3, on a file with a zero byte: `web/logo.png` holds the 8 bytes `PNG\0IHDR`; the response
to `GET /logo.png` announces `Content-Length: 8`, and the body that follows the headers is the
three bytes `PNG`, after which `send` is given the terminating NUL of `response`. -/
theorem body_stops_at_zero_byte :
    documentRoot "web/logo.png".toList = some ("PNG".toList ++ [NUL] ++ "IHDR".toList) ∧
    processRequest listDictionary documentRoot
      [.data "GET /logo.png HTTP/1.1\r\nConnection: close\r\n\r\n".toList] =
      .ok (("HTTP/1.1 200 OK\r\nContent-Type: image/png\r\nContent-Length: 8\r\n" ++
        "Connection: close\r\n\r\n" ++ "PNG").toList ++ [NUL]) := by
  decide

/-- C10, on a `POST` request: the length that `processRequest` sets for a 501 response is 15,
the length of the reason phrase `Not Implemented`, while `HTTP_501_CONTENT` has 205 characters;
the headers announce `Content-Length: 15`; and the body is read from `requestFile`, which was
never assigned, so nothing is sent. -/
theorem not_implemented_content_unused :
    (selectStatus documentRoot none).fileLength = some 15 ∧
    HTTP_501_CONTENT.length = 205 ∧
    assembleHeaders (selectStatus documentRoot none) (some "close".toList) =
      .ok ("HTTP/1.1 501 Not Implemented\r\nContent-Type: text/html\r\n" ++
        "Content-Length: 15\r\nConnection: close\r\n\r\n").toList ∧
    processRequest listDictionary documentRoot
      [.data "POST / HTTP/1.1\r\nConnection: close\r\n\r\n".toList] = .error .uninitialised := by
  refine ⟨by decide, by rfl, by decide, by decide⟩

/-! ## The digits of `Content-Length` -/

/-- The counting loop and `Nat.toDigitsCore` make the same number of rounds. -/
theorem intLengthLoop_eq (n : Nat) : 0 < n → ∀ (f1 f2 : Nat) (ds : List Char) (acc : Int),
    n < f1 → n ≤ f2 →
    intLengthLoop f2 (n : Int) acc =
      acc + ((Nat.toDigitsCore 10 f1 n ds).length : Int) - (ds.length : Int) := by
  induction n using Nat.strong_induction_on with
  | _ n ih =>
    intro hn f1 f2 ds acc h1 h2
    obtain ⟨g1, rfl⟩ : ∃ g, f1 = g + 1 := ⟨f1 - 1, by omega⟩
    obtain ⟨g2, rfl⟩ : ∃ g, f2 = g + 1 := ⟨f2 - 1, by omega⟩
    have hpos : (n : Int) > 0 := by exact_mod_cast hn
    have hdiv : Int.tdiv (n : Int) 10 = ((n / 10 : Nat) : Int) := by
      rw [Int.tdiv_eq_ediv (by omega) (by omega)]
      norm_cast
    rw [intLengthLoop, if_pos hpos, hdiv, Nat.toDigitsCore]
    by_cases h0 : n / 10 = 0
    · simp only [h0, if_true, List.length_cons]
      have : intLengthLoop g2 ((0 : Nat) : Int) (acc + 1) = acc + 1 := by
        cases g2 <;> simp [intLengthLoop]
      rw [this]
      push_cast
      ring
    · simp only [h0, if_false]
      have hlt : n / 10 < n := Nat.div_lt_self hn (by decide)
      rw [ih (n / 10) hlt (Nat.pos_of_ne_zero h0) g1 g2 _ (acc + 1) (by omega) (by omega)]
      have hl : (((n % 10).digitChar :: ds).length : Int) = (ds.length : Int) + 1 := by
        simp
      rw [hl]
      ring

theorem decimal_natCast (n : Nat) : decimal (n : Int) = Nat.toDigits 10 n := by
  have h : ¬ ((n : Int) < 0) := by omega
  simp [decimal, h]

/-- With at least `n` rounds the loop counts the decimal digits of a positive `n`. -/
theorem intLengthLoop_digits (n fuel : Nat) (hn : 0 < n) (hf : n ≤ fuel) :
    intLengthLoop fuel (n : Int) 0 = ((decimal (n : Int)).length : Int) := by
  rw [decimal_natCast, Nat.toDigits, intLengthLoop_eq n hn (n + 1) fuel [] 0 (by omega) hf]
  simp

/-- C19: for a non-negative `fileLength` the loop of lines 320-323 leaves in `intLength` the
number of characters that `%d` writes for `fileLength` (more rounds than `fileLength` change
nothing), so that the bytes requested for the `Content-Length` line are those of the line and
its terminator, and the size given to `realloc` is the length of the new `response` plus one. -/
theorem int_length_counts_digits (fileLength : Int) (h : 0 ≤ fileLength) (response : CStr) :
    intLength fileLength = ((decimal fileLength).length : Int) ∧
    (∀ fuel, fileLength.toNat ≤ fuel →
      (if fileLength = 0 then 1 else intLengthLoop fuel fileLength 0) = intLength fileLength) ∧
    (("Content-Length: ".toList.length : Int) + intLength fileLength + 2 + 1 =
      (("Content-Length: ".toList ++ decimal fileLength ++ "\r\n".toList).length : Int) + 1) ∧
    contentLengthAlloc response fileLength =
      ((addContentLength response fileLength).length : Int) + 1 := by
  obtain ⟨n, rfl⟩ := Int.eq_ofNat_of_zero_le h
  have key : intLength (n : Int) = ((decimal (n : Int)).length : Int) := by
    unfold intLength
    by_cases h0 : n = 0
    · subst h0
      decide
    · have hne : ¬ ((n : Int) = 0) := by omega
      rw [if_neg hne, Int.toNat_ofNat, intLengthLoop_digits n n (by omega) (le_refl n)]
  refine ⟨key, ?_, ?_, ?_⟩
  · intro fuel hf
    rw [Int.toNat_ofNat] at hf
    by_cases h0 : n = 0
    · subst h0
      rw [key]
      simp only [Nat.cast_zero, if_true]
      decide
    · have hne : ¬ ((n : Int) = 0) := by omega
      rw [if_neg hne, key, intLengthLoop_digits n fuel (by omega) hf]
  · have h2 : "\r\n".toList.length = 2 := rfl
    rw [key]
    simp only [List.length_append, h2]
    push_cast
    ring
  · have h2 : "\r\n".toList.length = 2 := rfl
    unfold contentLengthAlloc addContentLength
    rw [key]
    simp only [List.length_append, h2]
    push_cast
    ring

theorem int_length_counts_digits_witness :
    intLength 324 = 3 ∧ contentLengthAlloc "HTTP/1.1 200 OK\r\n".toList 324 = 39 := by
  have h := int_length_counts_digits 324 (by decide) "HTTP/1.1 200 OK\r\n".toList
  exact ⟨h.1.trans (by decide), h.2.2.2.trans (by decide)⟩

/-- C17, on the three status lines: the size given to `malloc` is 15, 22 and 28 bytes, while
the formatted line with its terminator takes 18, 25 and 31 bytes: the block is three bytes
short each time. -/
theorem status_line_block_three_short :
    statusLineAlloc HTTP_200_STRING = 15 ∧
    (statusLine 200 HTTP_200_STRING).length + 1 = 18 ∧
    statusLineAlloc HTTP_404_STRING = 22 ∧
    (statusLine 404 HTTP_404_STRING).length + 1 = 25 ∧
    statusLineAlloc HTTP_501_STRING = 28 ∧
    (statusLine 501 HTTP_501_STRING).length + 1 = 31 ∧
    statusLine 200 HTTP_200_STRING = "HTTP/1.1 200 OK\r\n".toList ∧
    (∀ reason : CStr, (statusLine 200 reason).length + 1 = statusLineAlloc reason + 3 ∧
      (statusLine 404 reason).length + 1 = statusLineAlloc reason + 3 ∧
      (statusLine 501 reason).length + 1 = statusLineAlloc reason + 3) := by
  refine ⟨by decide, by decide, by decide, by decide, by decide, by decide, by decide, ?_⟩
  intro reason
  have h200 : (decimal 200).length = 3 := by decide
  have h404 : (decimal 404).length = 3 := by decide
  have h501 : (decimal 501).length = 3 := by decide
  have h8 : "HTTP/1.1".toList.length = 8 := rfl
  have h1 : " ".toList.length = 1 := rfl
  have h2 : "\r\n".toList.length = 2 := rfl
  simp only [statusLine, statusLineAlloc, List.length_append, h200, h404, h501, h8, h1, h2]
  omega

/-! ## Short lines and the assertions -/

theorem requestLen_neg_iff (request : CStr) : requestLen request < 0 ↔ request.length < 13 := by
  unfold requestLen
  omega

/-- The two `assert`s of the parser never fail. -/
theorem process_never_asserts (request : CStr) :
    process_http_header_request request ≠ .error .assertion := by
  by_cases hget : "GET ".toList <+: request
  · rw [process_get request hget]
    split_ifs <;> simp
  · rw [process_not_get request hget]
    simp

/-- C18, on the line `GET /`: it begins with `"GET "`, the value of `len` is -8, and the parser
stops in the copy of `len` characters. For every line, `len` is negative exactly when the line
has fewer than 13 characters. -/
theorem short_line_negative_len :
    "GET ".toList <+: "GET /".toList ∧
    requestLen "GET /".toList = -8 ∧
    process_http_header_request "GET /".toList = .error .outOfBounds ∧
    (∀ request : CStr, requestLen request < 0 ↔ request.length < 13) :=
  ⟨by decide, by decide, by decide, requestLen_neg_iff⟩

/-- C20, on the line `GET /index.html HTTP/1.1\r\n`: it begins with `"GET "` and holds both
`\r` and `\n`, no assertion fails and the filename `/index.html H` is returned. For no line at
all does an assertion of the parser fail. -/
theorem assertions_never_fail :
    "GET ".toList <+: "GET /index.html HTTP/1.1\r\n".toList ∧
    '\r' ∈ "GET /index.html HTTP/1.1\r\n".toList ∧
    '\n' ∈ "GET /index.html HTTP/1.1\r\n".toList ∧
    process_http_header_request "GET /index.html HTTP/1.1\r\n".toList =
      .ok (some "/index.html H".toList) ∧
    (∀ request : CStr, process_http_header_request request ≠ .error .assertion) :=
  ⟨by decide, by decide, by decide, by decide, process_never_asserts⟩

/-! ## Responses that are never completed -/

/-- When `fopen` returns NULL the handler stops at the first use of `fileLength`. -/
theorem not_found_stops (fopen : CStr → Option (List Char)) (f : CStr)
    (connection : Option CStr) (h : fopen (newName f) = none) :
    assembleResponse (selectStatus fopen (some f)) connection = .error .uninitialised := by
  simp [assembleResponse, assembleHeaders, selectStatus, h, contentType]

/-- Without a `Connection` entry no headers are completed. -/
theorem no_connection_stops (st : Status) (headers : CStr) :
    assembleHeaders st none ≠ .ok headers := by
  unfold assembleHeaders
  cases contentType st.status_code st.fileName with
  | error e => simp
  | ok content_type =>
    cases st.fileLength with
    | none => simp
    | some n => simp [connectionValue]

/-- A file name without `.` stops the choice of the content type of a 200 response. -/
theorem no_extension_stops (name : CStr) (h : '.' ∉ name) :
    contentType 200 (some name) = .error .nullPointer := by
  simp [contentType, (strrchr_eq_none_iff name '.').mpr h]

set_option maxRecDepth 4096 in
/-- C11, on `GET /missing.html`: the status line is `HTTP/1.1 404 Not Found\r\n`, but
`fileLength` is never assigned and `requestFile` is NULL, so the handler stops before the
`Content-Length` line and sends nothing; `HTTP_404_CONTENT`, of 324 characters, is not used. -/
theorem not_found_content_unused :
    documentRoot (newName "/missing.html".toList) = none ∧
    (selectStatus documentRoot (some "/missing.html".toList)).status_code = 404 ∧
    statusLine (selectStatus documentRoot (some "/missing.html".toList)).status_code
      (selectStatus documentRoot (some "/missing.html".toList)).status_code_string =
      "HTTP/1.1 404 Not Found\r\n".toList ∧
    (selectStatus documentRoot (some "/missing.html".toList)).fileLength = none ∧
    (selectStatus documentRoot (some "/missing.html".toList)).requestFile = .null ∧
    HTTP_404_CONTENT.length = 324 ∧
    processRequest listDictionary documentRoot
      [.data "GET /missing.html HTTP/1.1\r\nConnection: close\r\n\r\n".toList] =
      .error .uninitialised := by
  refine ⟨by decide, by decide, by decide, by decide, by decide, by rfl, by decide⟩

/-- C12, on `GET / HTTP/1.1` without headers: `dictionary_get` finds no `Connection` entry,
`strcasecmp` is handed NULL and nothing is sent; and no headers are completed for any status
when the lookup returns NULL. -/
theorem missing_connection_header_stops :
    listDictionary.get listDictionary.init "Connection".toList = none ∧
    processRequest listDictionary documentRoot [.data "GET / HTTP/1.1\r\n\r\n".toList] =
      .error .nullPointer ∧
    connectionValue none = .error .nullPointer ∧
    (∀ (st : Status) (headers : CStr), assembleHeaders st none ≠ .ok headers) :=
  ⟨by decide, by decide, rfl, no_connection_stops⟩

/-- C13, on `GET /README` with the file `web/README` in place: the status is 200, `strrchr`
finds no `.` in `web/README`, `strcmp` is handed NULL and nothing is sent. -/
theorem missing_extension_stops :
    readmeRoot "web/README".toList = some "hello".toList ∧
    (selectStatus readmeRoot (some "/README".toList)).status_code = 200 ∧
    (selectStatus readmeRoot (some "/README".toList)).fileName = some "web/README".toList ∧
    strrchr "web/README".toList '.' = none ∧
    contentType 200 (some "web/README".toList) = .error .nullPointer ∧
    processRequest listDictionary readmeRoot
      [.data "GET /README HTTP/1.1\r\nConnection: close\r\n\r\n".toList] =
      .error .nullPointer := by
  decide

/-! ## Receiving and sending -/

/-- C14, on the chunks `GET / HTTP/1.1\r\nConnection: close\r\n` and `\r\n`: neither holds the
blank line and their concatenation does; after the second `recv` the handler calls `recv` a
third time, and it takes a third chunk that holds the blank line itself to end the loop. -/
theorem split_terminator_missed (D : Type) (d : Dictionary D)
    (fopen : CStr → Option (List Char)) :
    strstr "GET / HTTP/1.1\r\nConnection: close\r\n".toList CRLFCRLF = none ∧
    strstr "\r\n".toList CRLFCRLF = none ∧
    (strstr ("GET / HTTP/1.1\r\nConnection: close\r\n".toList ++ "\r\n".toList)
      CRLFCRLF).isSome = true ∧
    processRequest d fopen
      [.data "GET / HTTP/1.1\r\nConnection: close\r\n".toList, .data "\r\n".toList] =
      .error .blocked ∧
    (receiveHeaders d
      [.data "GET / HTTP/1.1\r\nConnection: close\r\n".toList, .data "\r\n".toList,
       .data "\r\n\r\n".toList]).map (fun parsed => parsed.recvs) = .ok 3 := by
  refine ⟨by decide, by decide, by decide, ?_, ?_⟩
  · rfl
  · rfl

/-- C15, on `GET /` with the 13 characters of `web/index.html`: the headers say
`Content-Length: 13`, and `send` is handed 14 bytes after the blank line, the file and the
terminating NUL of `response`. -/
theorem send_gets_terminator_too :
    processRequest listDictionary documentRoot
      [.data "GET / HTTP/1.1\r\nConnection: close\r\n\r\n".toList] =
      .ok (("HTTP/1.1 200 OK\r\nContent-Type: text/html\r\nContent-Length: 13\r\n" ++
        "Connection: close\r\n\r\n").toList ++ ("Hello, world!".toList ++ [NUL])) ∧
    ("Hello, world!".toList ++ [NUL]).length = 14 := by
  decide

/-- C16: a first `recv` that fails ends the handler with nothing parsed and nothing sent; a
first `recv` of no bytes does not: the buffer holds no token, `strtok` returns NULL and
`process_http_header_request` is called with it. -/
theorem first_recv_outcomes (D : Type) (d : Dictionary D) (fopen : CStr → Option (List Char))
    (socket : List Recv) :
    processRequest d fopen (.error :: socket) = .error .recvFailed ∧
    (strtokAll (recv (List.replicate buffSize NUL) []) none).1 = [] ∧
    processRequest d fopen (.data [] :: socket) = .error .nullPointer := by
  refine ⟨rfl, by decide, rfl⟩

end Server
